import Mathlib

/-!
Verification of the tetra 2D rendering core (sprite batcher, geometry
builder / tessellation glue, mesh and GPU buffer handles).

The repository snapshot contains three source files from two crate
revisions:

* `src/graphics/mod.rs` — the early sprite batcher (`GraphicsContext`,
  `set_texture`, `flush`, `push_vertex`, `DrawParams` without `rotation`);
* `src/graphics/mesh.rs` — the later mesh / geometry-builder module
  (`VertexBuffer`, `IndexBuffer`, `Mesh`, `GeometryBuilder`); its own
  `graphics/mod.rs` (the one defining the `DrawParams` with a `rotation`
  field read at mesh.rs:513, the default texture, and the mesh-era flush)
  is not part of the snapshot;
* `src/platform.rs` — re-exports of the GPU device module `device_gl`,
  whose body is likewise not part of the snapshot.

Pure data and control flow are translated directly from the source.
Effects on the GPU device are modelled as explicit traces of device
operations, and the state of device-resident buffers as lists of
contents indexed by handle id.  Scalars that are `f32` in the source are
represented as integers: no fact proved here depends on floating-point
arithmetic, only on which values are stored, compared and forwarded.
-/

namespace Tetra

/-- Scalar type standing in for the f32 values of the source. -/
abbrev Scalar := Int

/-- Two-dimensional vector (`Vec2<f32>` in the source). -/
structure Vec2 where
  x : Scalar
  y : Scalar
  deriving DecidableEq, Repr

/-- RGBA color (`Color` in the source). -/
structure Color where
  r : Scalar
  g : Scalar
  b : Scalar
  a : Scalar
  deriving DecidableEq, Repr

/-- Opaque white, `Color::WHITE` (rgba 1,1,1,1) in the source. -/
def Color.WHITE : Color := ⟨1, 1, 1, 1⟩

/-- An individual piece of vertex data (mesh.rs lines 24-41). -/
structure Vertex where
  position : Vec2
  uv : Vec2
  color : Color
  deriving DecidableEq, Repr

/-- Constructor for `Vertex` (mesh.rs lines 43-52). -/
def Vertex.new (position uv : Vec2) (color : Color) : Vertex :=
  ⟨position, uv, color⟩

/-- The ordering of the vertices in a piece of geometry (mesh.rs lines 76-82). -/
inductive VertexWinding where
  | Clockwise
  | CounterClockwise
  deriving DecidableEq, Repr

/-- Returns the opposite winding (mesh.rs lines 86-91). -/
def VertexWinding.flipped : VertexWinding → VertexWinding
  | .Clockwise => .CounterClockwise
  | .CounterClockwise => .Clockwise

/-- A texture handle.  Texture equality in the source is the `PartialEq`
of the handle, modelled here by an identity number. -/
structure Texture where
  id : Nat
  deriving DecidableEq, Repr

/-! The early sprite batcher, from `src/graphics/mod.rs`. -/

/-- Number of indices per sprite, `INDEX_STRIDE` (mod.rs line 16). -/
def INDEX_STRIDE : Nat := 6

/-- The static per-quad index pattern `INDEX_ARRAY` (mod.rs line 17). -/
def INDEX_ARRAY : List Nat := [0, 1, 2, 2, 3, 0]

/-- The batcher state inside `GraphicsContext` (mod.rs lines 21-31):
the currently bound texture, the CPU-side scratch vertex data
(`vertices: Vec<f32>`, seven scalars per vertex), and `sprite_count`.
The GPU buffer handles, shader and projection matrix of the struct are
not part of the state tracked here; their use is recorded in the
operation trace instead. -/
structure GraphicsContext where
  texture : Option Texture
  vertices : List Scalar
  sprite_count : Nat
  deriving DecidableEq, Repr

/-- An observable operation issued to the GL device by the batcher. -/
inductive GpuOp where
  | setUniform
  | setVertexBufferData (data : List Scalar) (offset : Nat)
  | draw (texture : Texture) (count : Nat)
  deriving DecidableEq, Repr

/-- Pushes one vertex (seven scalars) onto the scratch buffer
(mod.rs lines 165-173). -/
def push_vertex (ctx : GraphicsContext) (x y u v : Scalar) (color : Color) :
    GraphicsContext :=
  { ctx with
      vertices :=
        ctx.vertices ++ [x, y, u, v, color.r, color.g, color.b] }

/-- Modelled from the spec: the quad-pushing entry point (`Texture::draw`
in the crate, not under src) "appends 4 vertices (position, uv, color)
for one quad to a growing scratch buffer and increments `sprite_count`"
(spec 4.4).  The four corners are pushed through `push_vertex`. -/
def push_quad (ctx : GraphicsContext) (x y w h : Scalar) (color : Color) :
    GraphicsContext :=
  let ctx := push_vertex ctx x y 0 0 color
  let ctx := push_vertex ctx x (y + h) 0 1 color
  let ctx := push_vertex ctx (x + w) (y + h) 1 1 color
  let ctx := push_vertex ctx (x + w) y 1 0 color
  { ctx with sprite_count := ctx.sprite_count + 1 }

/-- Submits the accumulated batch (mod.rs lines 192-220).  When at least
one sprite is pending and a texture is bound: sets the projection
uniform, uploads the scratch vertices at offset 0, issues one indexed
draw over `sprite_count * INDEX_STRIDE` indices with the bound texture,
then clears the scratch buffer and resets `sprite_count`.  Otherwise it
does nothing.  The returned list is the trace of device operations. -/
def flush (ctx : GraphicsContext) : GraphicsContext × List GpuOp :=
  match ctx.texture with
  | some t =>
      if ctx.sprite_count > 0 then
        ({ ctx with vertices := [], sprite_count := 0 },
         [GpuOp.setUniform,
          GpuOp.setVertexBufferData ctx.vertices 0,
          GpuOp.draw t (ctx.sprite_count * INDEX_STRIDE)])
      else (ctx, [])
  | none => (ctx, [])

/-- Binds a texture for subsequent quads (mod.rs lines 179-190).  If the
bound texture equals the requested one: no-op.  If none is bound: bind
without flushing.  Otherwise the source first rebinds
(`ctx.graphics.texture = Some(texture.clone())`) and only then calls
`flush(ctx)` — so the flush issued at a texture switch already sees the
new texture. -/
def set_texture (ctx : GraphicsContext) (texture : Texture) :
    GraphicsContext × List GpuOp :=
  match ctx.texture with
  | some inner =>
      if inner = texture then (ctx, [])
      else
        let ctx := { ctx with texture := some texture }
        flush ctx
  | none => ({ ctx with texture := some texture }, [])

/-- Extracts the draw operations of a trace. -/
def drawsOf (ops : List GpuOp) : List GpuOp :=
  ops.filter fun op =>
    match op with
    | GpuOp.draw _ _ => true
    | _ => false

/-! The GPU device, buffer handles and meshes, from `src/graphics/mesh.rs`
and the device module re-exported by `src/platform.rs`. -/

/-- Axis-aligned rectangle (mod.rs lines 79-95, `Rectangle<T = f32>`). -/
structure Rectangle where
  x : Scalar
  y : Scalar
  width : Scalar
  height : Scalar
  deriving DecidableEq, Repr

/-- Constructor for `Rectangle` (mod.rs lines 87-94). -/
def Rectangle.new (x y width height : Scalar) : Rectangle :=
  ⟨x, y, width, height⟩

/-- Modelled from the spec: a raw device-side vertex buffer handle
(`RawVertexBuffer`, re-exported by platform.rs from the `device_gl`
module that is not under src).  It carries its identity and its fixed
element count ("allocates a buffer sized to data", spec 4.1). -/
structure RawVertexBuffer where
  id : Nat
  count : Nat
  deriving DecidableEq, Repr

/-- Modelled from the spec: a raw device-side index buffer handle,
like `RawVertexBuffer`. -/
structure RawIndexBuffer where
  id : Nat
  count : Nat
  deriving DecidableEq, Repr

/-- Modelled from the spec: the state of the GPU device (spec section
6) — the contents of the device-resident vertex and index buffers,
indexed by handle id in order of allocation.  Platform (allocation)
errors are environmental conditions outside this model: allocation
always succeeds here. -/
structure Device where
  vbufs : List (List Vertex)
  ibufs : List (List Nat)
  deriving DecidableEq, Repr

/-- Vertex whose components are all zero, the contents of a
freshly allocated, not yet written buffer element. -/
def Vertex.zero : Vertex := ⟨⟨0, 0⟩, ⟨0, 0⟩, ⟨0, 0, 0, 0⟩⟩

/-- Writes `data` over `l` starting at `offset`, keeping the rest.
The precondition `offset + data.length ≤ l.length` (spec 4.1: its
violation is a fatal programmer error, not a recoverable failure) holds
at every use below. -/
def overwriteAt {α : Type _} (l : List α) (offset : Nat) (data : List α) :
    List α :=
  l.take offset ++ data ++ l.drop (offset + data.length)

/-- Modelled from the spec: `new_vertex_buffer(count, stride, usage)`
(spec section 6) allocates a fresh buffer of `count` elements; the
stride and usage hint do not affect correctness and are dropped. -/
def Device.new_vertex_buffer (d : Device) (count : Nat) :
    Device × RawVertexBuffer :=
  ({ d with vbufs := d.vbufs ++ [List.replicate count Vertex.zero] },
   ⟨d.vbufs.length, count⟩)

/-- Modelled from the spec: `set_vertex_buffer_data(handle, data, offset)`
overwrites the buffer contents from `offset` on. -/
def Device.set_vertex_buffer_data (d : Device) (buffer : RawVertexBuffer)
    (data : List Vertex) (offset : Nat) : Device :=
  { d with
      vbufs :=
        d.vbufs.set buffer.id
          (overwriteAt (d.vbufs.getD buffer.id []) offset data) }

/-- The current contents of a device vertex buffer. -/
def Device.readVertexBuffer (d : Device) (buffer : RawVertexBuffer) :
    List Vertex :=
  d.vbufs.getD buffer.id []

/-- Modelled from the spec: `new_index_buffer(count, usage)` allocates a
fresh index buffer of `count` elements. -/
def Device.new_index_buffer (d : Device) (count : Nat) :
    Device × RawIndexBuffer :=
  ({ d with ibufs := d.ibufs ++ [List.replicate count 0] },
   ⟨d.ibufs.length, count⟩)

/-- Modelled from the spec: `set_index_buffer_data(handle, data, offset)`
overwrites the buffer contents from `offset` on. -/
def Device.set_index_buffer_data (d : Device) (buffer : RawIndexBuffer)
    (data : List Nat) (offset : Nat) : Device :=
  { d with
      ibufs :=
        d.ibufs.set buffer.id
          (overwriteAt (d.ibufs.getD buffer.id []) offset data) }

/-- The current contents of a device index buffer. -/
def Device.readIndexBuffer (d : Device) (buffer : RawIndexBuffer) :
    List Nat :=
  d.ibufs.getD buffer.id []

/-- Vertex data handle (mesh.rs lines 108-111): wraps
`Rc<RawVertexBuffer>`; the raw handle's id plays the role of the shared
pointer. -/
structure VertexBuffer where
  handle : RawVertexBuffer
  deriving DecidableEq, Repr

/-- Cloning a `VertexBuffer` duplicates the handle (`Rc::clone`); the
underlying GPU resource — the store entry at `handle.id` — is shared
between the original and the clone. -/
def VertexBuffer.clone (b : VertexBuffer) : VertexBuffer := b

/-- Creates a vertex buffer (mesh.rs lines 123-148: `new` delegates to
`with_usage`, which allocates `vertices.len()` elements and uploads the
initial contents at offset 0; the usage hint does not affect
correctness and is dropped). -/
def VertexBuffer.new (d : Device) (vertices : List Vertex) :
    Device × VertexBuffer :=
  let alloc := d.new_vertex_buffer vertices.length
  let d := alloc.1.set_vertex_buffer_data alloc.2 vertices 0
  (d, ⟨alloc.2⟩)

/-- Uploads new vertex data to the GPU (mesh.rs lines 155-158). -/
def VertexBuffer.set_data (b : VertexBuffer) (d : Device)
    (vertices : List Vertex) (offset : Nat) : Device :=
  d.set_vertex_buffer_data b.handle vertices offset

/-- Index data handle (mesh.rs lines 191-194): wraps
`Rc<RawIndexBuffer>`. -/
structure IndexBuffer where
  handle : RawIndexBuffer
  deriving DecidableEq, Repr

/-- Cloning an `IndexBuffer` duplicates the handle; the underlying GPU
resource is shared. -/
def IndexBuffer.clone (b : IndexBuffer) : IndexBuffer := b

/-- Creates an index buffer (mesh.rs lines 206-230: `new` delegates to
`with_usage`). -/
def IndexBuffer.new (d : Device) (indices : List Nat) :
    Device × IndexBuffer :=
  let alloc := d.new_index_buffer indices.length
  let d := alloc.1.set_index_buffer_data alloc.2 indices 0
  (d, ⟨alloc.2⟩)

/-- Sends new index data to the GPU (mesh.rs lines 237-240). -/
def IndexBuffer.set_data (b : IndexBuffer) (d : Device)
    (indices : List Nat) (offset : Nat) : Device :=
  d.set_index_buffer_data b.handle indices offset

/-- Sub-selection of vertices/indices to draw (mesh.rs lines 243-247). -/
structure DrawRange where
  start : Nat
  count : Nat
  deriving DecidableEq, Repr

/-- Ways of drawing a shape (mesh.rs lines 250-256). -/
inductive ShapeStyle where
  | Fill
  | Stroke (width : Scalar)
  deriving DecidableEq, Repr

/-- Modelled from the spec: the `DrawParams` consumed by `Mesh::draw`.
The `graphics/mod.rs` of the crate revision mesh.rs belongs to is not
under src (mesh.rs line 513 reads `params.rotation`, a field the earlier
`DrawParams` of the mod.rs under src does not have).  Per spec 4.5 the
recognized options are position (default 0,0), scale (default 1,1),
origin (default 0,0 — the pivot), rotation (default 0), color (default
opaque white) and clip (optional scissor rectangle, default none).  All
fields other than `rotation` agree with the earlier `DrawParams` under
src (mod.rs lines 97-146). -/
structure DrawParams where
  position : Vec2
  scale : Vec2
  origin : Vec2
  rotation : Scalar
  color : Color
  clip : Option Rectangle
  deriving DecidableEq, Repr

/-- Construction of a default `DrawParams` (mod.rs lines 136-146 plus
the spec-modelled `rotation` default of 0). -/
def DrawParams.default : DrawParams :=
  ⟨⟨0, 0⟩, ⟨1, 1⟩, ⟨0, 0⟩, 0, Color.WHITE, none⟩

/-- `DrawParams::new` returns the default (mod.rs lines 106-108). -/
def DrawParams.new : DrawParams := DrawParams.default

/-- Conversion from a bare position value (`From<Vec2> for DrawParams`,
mod.rs lines 148-155): only `position` is set, every other option keeps
its default.  The spec's design notes call this `from_position`. -/
def DrawParams.from_position (position : Vec2) : DrawParams :=
  { DrawParams.default with position := position }

/-- A 2D mesh (mesh.rs lines 281-287): a vertex buffer composed with an
optional index buffer, optional texture and optional draw range. -/
structure Mesh where
  vertex_buffer : VertexBuffer
  index_buffer : Option IndexBuffer
  texture : Option Texture
  draw_range : Option DrawRange
  deriving DecidableEq, Repr

/-- Creates a mesh from a vertex buffer (mesh.rs lines 291-298). -/
def Mesh.new (vertex_buffer : VertexBuffer) : Mesh :=
  ⟨vertex_buffer, none, none, none⟩

/-- Creates an indexed mesh (mesh.rs lines 301-308). -/
def Mesh.indexed (vertex_buffer : VertexBuffer)
    (index_buffer : IndexBuffer) : Mesh :=
  ⟨vertex_buffer, some index_buffer, none, none⟩

/-- Cloning a `Mesh` (derived `Clone`, mesh.rs line 281) duplicates the
composition: the handles it holds are copied as values. -/
def Mesh.clone (m : Mesh) : Mesh := m

/-- Replaces the vertex buffer (mesh.rs lines 433-435). -/
def Mesh.set_vertex_buffer (m : Mesh) (vertex_buffer : VertexBuffer) :
    Mesh :=
  { m with vertex_buffer := vertex_buffer }

/-- Attaches an index buffer (mesh.rs lines 445-447). -/
def Mesh.set_index_buffer (m : Mesh) (index_buffer : IndexBuffer) : Mesh :=
  { m with index_buffer := some index_buffer }

/-- Detaches the index buffer (mesh.rs lines 450-452). -/
def Mesh.reset_index_buffer (m : Mesh) : Mesh :=
  { m with index_buffer := none }

/-- Attaches a texture (mesh.rs lines 462-464). -/
def Mesh.set_texture (m : Mesh) (texture : Texture) : Mesh :=
  { m with texture := some texture }

/-- Detaches the texture (mesh.rs lines 467-469). -/
def Mesh.reset_texture (m : Mesh) : Mesh :=
  { m with texture := none }

/-- Sets the draw range (mesh.rs lines 476-478). -/
def Mesh.set_draw_range (m : Mesh) (start count : Nat) : Mesh :=
  { m with draw_range := some ⟨start, count⟩ }

/-- Resets the draw range (mesh.rs lines 481-483). -/
def Mesh.reset_draw_range (m : Mesh) : Mesh :=
  { m with draw_range := none }

/-- An observable device operation issued while drawing a mesh. -/
inductive DeviceOp where
  | setDefaultUniforms (params : DrawParams)
  | drawElements (vb : RawVertexBuffer) (ib : RawIndexBuffer)
      (texture : Texture) (start count : Nat)
  | drawArrays (vb : RawVertexBuffer) (texture : Texture)
      (start count : Nat)
  deriving DecidableEq, Repr

/-- Draws the mesh (`impl Drawable for Mesh`, mesh.rs lines 492-552),
given as the trace of device operations the mesh submission itself
issues.  The leading `graphics::flush(ctx)` (line 497) hands pending
batched sprites to the batcher of this crate revision (its
`graphics/mod.rs` is not under src) before the mesh is drawn and is
outside this trace; shader resolution (lines 504-507) picks the active
shader and is not modelled.  `default_texture` stands for
`ctx.graphics.default_texture`.  The texture is resolved (the mesh's
own, else the default), the transform built from the params is pushed
together with the tint color as uniforms (best-effort, failures
swallowed, lines 516-522), and exactly one draw call is issued:
`draw_elements` when an index buffer is present, with the range
defaulting to the index buffer's full count, else `draw_arrays` with
the range defaulting to the vertex buffer's full count
(lines 524-551). -/
def Mesh.draw (m : Mesh) (default_texture : Texture)
    (params : DrawParams) : List DeviceOp :=
  let texture :=
    match m.texture with
    | some t => t
    | none => default_texture
  let draw_range := m.draw_range.map fun r => (r.start, r.count)
  match m.index_buffer with
  | some index_buffer =>
      let range := draw_range.getD (0, index_buffer.handle.count)
      [DeviceOp.setDefaultUniforms params,
       DeviceOp.drawElements m.vertex_buffer.handle index_buffer.handle
         texture range.1 range.2]
  | none =>
      let range := draw_range.getD (0, m.vertex_buffer.handle.count)
      [DeviceOp.setDefaultUniforms params,
       DeviceOp.drawArrays m.vertex_buffer.handle texture
         range.1 range.2]

/-- The draw calls of a mesh trace (uniform updates filtered out). -/
def meshDrawsOf (ops : List DeviceOp) : List DeviceOp :=
  ops.filter fun op =>
    match op with
    | DeviceOp.setDefaultUniforms _ => false
    | _ => true

/-! The geometry builder, from `src/graphics/mesh.rs` lines 580-905.
The tessellation itself is performed by the external lyon crate, whose
code is not part of the repository; its behavior at the boundary is
modelled from the spec below. -/

/-- Tessellation failure ("shape geometry could not be triangulated",
spec section 7); stands for `TetraError::TessellationError` wrapping
the lyon error value. -/
inductive TessellationError where
  | degenerate
  deriving DecidableEq, Repr

/-- Accumulated geometry (`lyon::VertexBuffers<Vertex, u32>`, mesh.rs
line 583): the vertex and index sequences grown by the tessellators. -/
structure VertexBuffers where
  vertices : List Vertex
  indices : List Nat
  deriving DecidableEq, Repr

/-- Empty accumulated geometry (`VertexBuffers::new()`). -/
def VertexBuffers.new : VertexBuffers := ⟨[], []⟩

/-- The vertex constructor handed to the tessellators
(`TetraVertexConstructor`, mesh.rs lines 562-578): every emitted vertex
gets the position produced by the tessellator, zero texture
co-ordinates, and the color the constructor was created with — the
builder's current color. -/
def TetraVertexConstructor (color : Color) (position : Vec2) : Vertex :=
  Vertex.new position ⟨0, 0⟩ color

/-- Fan triangulation indices over `n` fresh vertices. -/
def fanIndices (n : Nat) : List Nat :=
  (List.range (n - 2)).flatMap fun i => [0, i + 1, i + 2]

/-- Ribbon (stroke) indices over `2 * n` fresh vertices: one quad per
outline segment, wrapping around when the outline is closed. -/
def ribbonIndices (n : Nat) (closed : Bool) : List Nat :=
  let segments := if closed then n else n - 1
  (List.range segments).flatMap fun i =>
    [2 * i, 2 * i + 1, (2 * i + 2) % (2 * n),
     (2 * i + 2) % (2 * n), 2 * i + 1, (2 * i + 3) % (2 * n)]

/-- Modelled from the spec: lyon fill tessellation of a closed outline
("Fill tessellation must produce a watertight triangulation of the
shape's interior", spec 4.3).  The exact triangulation is the
tessellation engine's business; here every outline point becomes one
vertex, built through the vertex constructor, and the interior is fan
triangulated. -/
def tessellateFill (color : Color) (points : List Vec2) :
    List Vertex × List Nat :=
  (points.map (TetraVertexConstructor color), fanIndices points.length)

/-- Modelled from the spec: lyon stroke tessellation of an outline
("Stroke tessellation must produce a ribbon of the given width centered
on the shape's outline", spec 4.3; "a zero stroke width yields a
tessellation error", spec section 8).  Each outline point becomes two
ribbon vertices, built through the vertex constructor.  On error no
geometry is produced ("no partial geometry is committed", spec
section 7). -/
def tessellateStroke (color : Color) (width : Scalar)
    (points : List Vec2) (closed : Bool) :
    Except TessellationError (List Vertex × List Nat) :=
  if width = 0 then Except.error TessellationError.degenerate
  else
    Except.ok
      ((points.flatMap fun p => [p, p]).map (TetraVertexConstructor color),
       ribbonIndices points.length closed)

/-- Corner points of a rectangle outline (`to_lyon_rect` call sites,
mesh.rs lines 555-560). -/
def rectanglePoints (rect : Rectangle) : List Vec2 :=
  [⟨rect.x, rect.y⟩, ⟨rect.x + rect.width, rect.y⟩,
   ⟨rect.x + rect.width, rect.y + rect.height⟩,
   ⟨rect.x, rect.y + rect.height⟩]

/-- Modelled from the spec: outline sample points for a circle; the
exact sampling is the tessellation engine's business. -/
def circlePoints (center : Vec2) (radius : Scalar) : List Vec2 :=
  [⟨center.x + radius, center.y⟩, ⟨center.x, center.y + radius⟩,
   ⟨center.x - radius, center.y⟩, ⟨center.x, center.y - radius⟩]

/-- Modelled from the spec: outline sample points for an ellipse. -/
def ellipsePoints (center : Vec2) (radii : Vec2) : List Vec2 :=
  [⟨center.x + radii.x, center.y⟩, ⟨center.x, center.y + radii.y⟩,
   ⟨center.x - radii.x, center.y⟩, ⟨center.x, center.y - radii.y⟩]

/-- Per-corner radii of a rounded rectangle (`BorderRadii`, re-exported
from lyon at mesh.rs line 1). -/
structure BorderRadii where
  top_left : Scalar
  top_right : Scalar
  bottom_right : Scalar
  bottom_left : Scalar
  deriving DecidableEq, Repr

/-- A builder for primitive shape geometry (mesh.rs lines 582-585). -/
structure GeometryBuilder where
  data : VertexBuffers
  color : Color
  deriving DecidableEq, Repr

/-- Creates a new empty geometry builder (mesh.rs lines 589-594). -/
def GeometryBuilder.new : GeometryBuilder :=
  ⟨VertexBuffers.new, Color.WHITE⟩

/-- The `Default` impl returns `new` (mesh.rs lines 901-905). -/
def GeometryBuilder.default : GeometryBuilder := GeometryBuilder.new

/-- Appends tessellator output to the accumulated data, as the
`BuffersBuilder` over `&mut self.data` does: new vertices go to the
end, new indices are offset by the number of vertices already
present. -/
def GeometryBuilder.append (b : GeometryBuilder)
    (out : List Vertex × List Nat) : GeometryBuilder :=
  { b with
      data :=
        ⟨b.data.vertices ++ out.1,
         b.data.indices ++ out.2.map (· + b.data.vertices.length)⟩ }

/-- Runs one tessellation result against the builder.  A source shape
method takes `&mut self` and returns `Result<&mut Self>`; here the
receiver is returned next to the optional error so the builder state
after a failed call is explicit.  On success the output is appended; on
error the accumulated data is untouched. -/
def GeometryBuilder.emit (b : GeometryBuilder)
    (res : Except TessellationError (List Vertex × List Nat)) :
    GeometryBuilder × Option TessellationError :=
  match res with
  | Except.ok out => (b.append out, none)
  | Except.error e => (b, some e)

/-- Adds a rectangle (mesh.rs lines 602-628): fill or stroke
tessellation of the rectangle outline with the current color. -/
def GeometryBuilder.rectangle (b : GeometryBuilder) (style : ShapeStyle)
    (rect : Rectangle) : GeometryBuilder × Option TessellationError :=
  match style with
  | ShapeStyle.Fill =>
      b.emit (Except.ok (tessellateFill b.color (rectanglePoints rect)))
  | ShapeStyle.Stroke width =>
      b.emit (tessellateStroke b.color width (rectanglePoints rect) true)

/-- Adds a rounded rectangle (mesh.rs lines 636-663); the corner radii
only change the outline shape, which the engine model abstracts away. -/
def GeometryBuilder.rounded_rectangle (b : GeometryBuilder)
    (style : ShapeStyle) (rect : Rectangle) (_radii : BorderRadii) :
    GeometryBuilder × Option TessellationError :=
  match style with
  | ShapeStyle.Fill =>
      b.emit (Except.ok (tessellateFill b.color (rectanglePoints rect)))
  | ShapeStyle.Stroke width =>
      b.emit (tessellateStroke b.color width (rectanglePoints rect) true)

/-- Adds a circle (mesh.rs lines 671-710). -/
def GeometryBuilder.circle (b : GeometryBuilder) (style : ShapeStyle)
    (center : Vec2) (radius : Scalar) :
    GeometryBuilder × Option TessellationError :=
  match style with
  | ShapeStyle.Fill =>
      b.emit (Except.ok (tessellateFill b.color (circlePoints center radius)))
  | ShapeStyle.Stroke width =>
      b.emit (tessellateStroke b.color width (circlePoints center radius) true)

/-- Adds an ellipse (mesh.rs lines 718-761). -/
def GeometryBuilder.ellipse (b : GeometryBuilder) (style : ShapeStyle)
    (center : Vec2) (radii : Vec2) :
    GeometryBuilder × Option TessellationError :=
  match style with
  | ShapeStyle.Fill =>
      b.emit (Except.ok (tessellateFill b.color (ellipsePoints center radii)))
  | ShapeStyle.Stroke width =>
      b.emit (tessellateStroke b.color width (ellipsePoints center radii) true)

/-- Adds a polygon (mesh.rs lines 769-807): the point list forms an
implicitly closed outline (`closed: true`).  Modelled from the spec on
the engine side: fewer than 3 points cannot be triangulated and yield a
tessellation error (spec section 8). -/
def GeometryBuilder.polygon (b : GeometryBuilder) (style : ShapeStyle)
    (points : List Vec2) : GeometryBuilder × Option TessellationError :=
  if points.length < 3 then (b, some TessellationError.degenerate)
  else
    match style with
    | ShapeStyle.Fill => b.emit (Except.ok (tessellateFill b.color points))
    | ShapeStyle.Stroke width =>
        b.emit (tessellateStroke b.color width points true)

/-- Adds a polyline (mesh.rs lines 815-840): always a stroke, over an
explicitly open outline (`closed: false`). -/
def GeometryBuilder.polyline (b : GeometryBuilder)
    (stroke_width : Scalar) (points : List Vec2) :
    GeometryBuilder × Option TessellationError :=
  b.emit (tessellateStroke b.color stroke_width points false)

/-- Sets the color used for subsequent shapes (mesh.rs lines 847-850). -/
def GeometryBuilder.set_color (b : GeometryBuilder) (color : Color) :
    GeometryBuilder :=
  { b with color := color }

/-- Clears the accumulated vertex and index data (mesh.rs lines
853-858). -/
def GeometryBuilder.clear (b : GeometryBuilder) : GeometryBuilder :=
  { b with data := ⟨[], []⟩ }

/-- View of the generated vertex data (mesh.rs lines 861-863). -/
def GeometryBuilder.vertices (b : GeometryBuilder) : List Vertex :=
  b.data.vertices

/-- View of the generated index data (mesh.rs lines 866-868). -/
def GeometryBuilder.indices (b : GeometryBuilder) : List Nat :=
  b.data.indices

/-- Consumes the builder, returning the generated geometry (mesh.rs
lines 871-873; the source takes `self` by value, so the builder is
moved out of and unusable afterwards). -/
def GeometryBuilder.into_data (b : GeometryBuilder) :
    List Vertex × List Nat :=
  (b.data.vertices, b.data.indices)

/-- Builds a vertex and index buffer pair from the generated geometry
(mesh.rs lines 881-886).  The source takes the builder by shared
reference (`&self`); the receiver is returned unchanged in first
position so the post-call builder state is explicit. -/
def GeometryBuilder.build_buffers (b : GeometryBuilder) (d : Device) :
    GeometryBuilder × Device × VertexBuffer × IndexBuffer :=
  let v := VertexBuffer.new d b.data.vertices
  let i := IndexBuffer.new v.1 b.data.indices
  (b, i.1, v.2, i.2)

/-- Builds an indexed mesh from the generated geometry (mesh.rs lines
894-898): builds the buffer pair, then wraps it with `Mesh::indexed`. -/
def GeometryBuilder.build_mesh (b : GeometryBuilder) (d : Device) :
    GeometryBuilder × Device × Mesh :=
  let r := b.build_buffers d
  (r.1, r.2.1, Mesh.indexed r.2.2.1 r.2.2.2)

/-- One call to a shape method of the builder; used to quantify over
"any shape method". -/
inductive ShapeCall where
  | rectangle (style : ShapeStyle) (rect : Rectangle)
  | rounded_rectangle (style : ShapeStyle) (rect : Rectangle)
      (radii : BorderRadii)
  | circle (style : ShapeStyle) (center : Vec2) (radius : Scalar)
  | ellipse (style : ShapeStyle) (center : Vec2) (radii : Vec2)
  | polygon (style : ShapeStyle) (points : List Vec2)
  | polyline (stroke_width : Scalar) (points : List Vec2)
  deriving DecidableEq, Repr

/-- Dispatches a reified shape call to the matching builder method. -/
def GeometryBuilder.applyCall (b : GeometryBuilder) (c : ShapeCall) :
    GeometryBuilder × Option TessellationError :=
  match c with
  | ShapeCall.rectangle style rect => b.rectangle style rect
  | ShapeCall.rounded_rectangle style rect radii =>
      b.rounded_rectangle style rect radii
  | ShapeCall.circle style center radius => b.circle style center radius
  | ShapeCall.ellipse style center radii => b.ellipse style center radii
  | ShapeCall.polygon style points => b.polygon style points
  | ShapeCall.polyline width points => b.polyline width points

/-- True when the shape call strokes with width zero. -/
def ShapeCall.zeroStroke : ShapeCall → Bool
  | ShapeCall.rectangle (ShapeStyle.Stroke w) _ => w == 0
  | ShapeCall.rounded_rectangle (ShapeStyle.Stroke w) _ _ => w == 0
  | ShapeCall.circle (ShapeStyle.Stroke w) _ _ => w == 0
  | ShapeCall.ellipse (ShapeStyle.Stroke w) _ _ => w == 0
  | ShapeCall.polygon (ShapeStyle.Stroke w) _ => w == 0
  | ShapeCall.polyline w _ => w == 0
  | _ => false

/-- True when the shape call is a polygon with fewer than 3 points. -/
def ShapeCall.fewPolygonPoints : ShapeCall → Bool
  | ShapeCall.polygon _ points => decide (points.length < 3)
  | _ => false

/-- Runs a sequence of shape calls, keeping the builder across calls. -/
def runCalls (b : GeometryBuilder) (calls : List ShapeCall) :
    GeometryBuilder :=
  calls.foldl (fun b c => (b.applyCall c).1) b

/-! Theorems.  First a few list lemmas about the buffer store. -/

theorem getD_concat_length {α : Type _} (l : List α) (x dflt : α) :
    (l ++ [x]).getD l.length dflt = x := by
  induction l with
  | nil => rfl
  | cons a t ih => simp [ih]

theorem set_concat_length {α : Type _} (l : List α) (x v : α) :
    (l ++ [x]).set l.length v = l ++ [v] := by
  induction l with
  | nil => rfl
  | cons a t ih => simp [ih]

theorem getD_set_self {α : Type _} (l : List α) (i : Nat) (v dflt : α)
    (h : i < l.length) : (l.set i v).getD i dflt = v := by
  induction l generalizing i with
  | nil => simp at h
  | cons a t ih =>
    cases i with
    | zero => rfl
    | succ n => simpa using ih n (by simpa using h)

theorem overwriteAt_zero_full {α : Type _} (l data : List α)
    (h : l.length ≤ data.length) : overwriteAt l 0 data = data := by
  unfold overwriteAt
  rw [List.take_zero, Nat.zero_add, List.drop_eq_nil_of_le h]
  simp

/-- Reading a vertex buffer right after creation yields the uploaded
vertices. -/
theorem readVertexBuffer_new (d : Device) (vs : List Vertex) :
    ((VertexBuffer.new d vs).1).readVertexBuffer
      (VertexBuffer.new d vs).2.handle = vs := by
  simp only [VertexBuffer.new, Device.new_vertex_buffer,
    Device.set_vertex_buffer_data, Device.readVertexBuffer]
  rw [getD_concat_length, overwriteAt_zero_full _ _ (by simp),
    set_concat_length, getD_concat_length]

/-- Reading an index buffer right after creation yields the uploaded
indices. -/
theorem readIndexBuffer_new (d : Device) (ixs : List Nat) :
    ((IndexBuffer.new d ixs).1).readIndexBuffer
      (IndexBuffer.new d ixs).2.handle = ixs := by
  simp only [IndexBuffer.new, Device.new_index_buffer,
    Device.set_index_buffer_data, Device.readIndexBuffer]
  rw [getD_concat_length, overwriteAt_zero_full _ _ (by simp),
    set_concat_length, getD_concat_length]

/-- A full-width `set_data` at offset 0 replaces the stored contents. -/
theorem readVertexBuffer_set_data_self (d : Device) (vb : VertexBuffer)
    (data : List Vertex) (hid : vb.handle.id < d.vbufs.length)
    (hlen : (d.readVertexBuffer vb.handle).length ≤ data.length) :
    (vb.set_data d data 0).readVertexBuffer vb.handle = data := by
  simp only [VertexBuffer.set_data, Device.set_vertex_buffer_data,
    Device.readVertexBuffer] at hlen ⊢
  rw [overwriteAt_zero_full _ _ hlen, getD_set_self _ _ _ _ hid]

/-- Claim C7: for every winding value w in \x7bClockwise,
CounterClockwise\x7d, `flipped (flipped w) = w`. -/
theorem winding_flipped_involution (w : VertexWinding) :
    w.flipped.flipped = w := by
  cases w <;> rfl

/-- Claim C3: with a texture bound and a positive sprite count, `flush`
uploads the scratch vertices at offset 0, issues exactly one indexed
draw covering `sprite_count * INDEX_STRIDE` indices, and clears the
scratch buffer and the sprite count; with no pending sprites it leaves
the state unchanged and issues no operation. -/
theorem flush_behavior (ctx : GraphicsContext) :
    (∀ t, ctx.texture = some t → 0 < ctx.sprite_count →
      flush ctx =
        ({ ctx with vertices := [], sprite_count := 0 },
         [GpuOp.setUniform,
          GpuOp.setVertexBufferData ctx.vertices 0,
          GpuOp.draw t (ctx.sprite_count * INDEX_STRIDE)]))
    ∧ (ctx.sprite_count = 0 → flush ctx = (ctx, [])) := by
  constructor
  · intro t ht hn
    simp only [flush, ht]
    rw [if_pos hn]
  · intro h0
    cases htex : ctx.texture with
    | none => simp [flush, htex]
    | some t => simp [flush, htex, h0]

/-- Witness for C3: `flush_behavior` evaluated on a batcher holding one
pending sprite with texture 0 bound, and on an empty batcher. -/
theorem flush_behavior_witness :
    flush ⟨some ⟨0⟩, [1, 2, 3, 4, 5, 6, 7], 1⟩ =
      (⟨some ⟨0⟩, [], 0⟩,
       [GpuOp.setUniform,
        GpuOp.setVertexBufferData [1, 2, 3, 4, 5, 6, 7] 0,
        GpuOp.draw ⟨0⟩ 6])
    ∧ flush ⟨none, [], 0⟩ = (⟨none, [], 0⟩, []) := by
  constructor
  · exact (flush_behavior ⟨some ⟨0⟩, [1, 2, 3, 4, 5, 6, 7], 1⟩).1 ⟨0⟩ rfl
      (by decide)
  · exact (flush_behavior ⟨none, [], 0⟩).2 rfl

/-- Claim C1 (code bug): over the binding sequence A, A, B, B with a
quad pushed after each binding, exactly one flush occurs, at the A-to-B
switch — but because `set_texture` rebinds before calling `flush`, the
draw call of that flush carries the new texture B rather than the
previously bound texture A under which the two pending quads were
accumulated. -/
theorem set_texture_switch_draws_new_texture :
    let A : Texture := ⟨0⟩
    let B : Texture := ⟨1⟩
    let s1 := set_texture ⟨none, [], 0⟩ A
    let c2 := push_quad s1.1 0 0 1 1 Color.WHITE
    let s3 := set_texture c2 A
    let c4 := push_quad s3.1 0 0 1 1 Color.WHITE
    let s5 := set_texture c4 B
    let c6 := push_quad s5.1 0 0 1 1 Color.WHITE
    let s7 := set_texture c6 B
    s1.2 = [] ∧ s3.2 = [] ∧ s7.2 = [] ∧
    drawsOf s5.2 = [GpuOp.draw B (2 * INDEX_STRIDE)] := by
  decide

/-- Claim C4: `Mesh.draw` issues exactly one draw call — indexed when an
index buffer is present, non-indexed otherwise — whose range defaults to
the full index count (indexed) or the full vertex count (non-indexed);
on an indexed mesh whose index buffer holds 10 indices,
`set_draw_range 2 3` makes the draw request index range [2, 5), and
`reset_draw_range` restores the full range [0, 10). -/
theorem mesh_draw_one_call (m : Mesh) (dt : Texture) (p : DrawParams) :
    (meshDrawsOf (m.draw dt p)).length = 1
    ∧ (∀ ib, m.texture = none → m.draw_range = none →
        m.index_buffer = some ib →
        m.draw dt p =
          [DeviceOp.setDefaultUniforms p,
           DeviceOp.drawElements m.vertex_buffer.handle ib.handle dt 0
             ib.handle.count])
    ∧ (m.texture = none → m.draw_range = none → m.index_buffer = none →
        m.draw dt p =
          [DeviceOp.setDefaultUniforms p,
           DeviceOp.drawArrays m.vertex_buffer.handle dt 0
             m.vertex_buffer.handle.count])
    ∧ (∀ ib, m.texture = none → m.index_buffer = some ib →
        ib.handle.count = 10 →
        ((m.set_draw_range 2 3).draw dt p =
          [DeviceOp.setDefaultUniforms p,
           DeviceOp.drawElements m.vertex_buffer.handle ib.handle dt 2 3])
        ∧ ((m.set_draw_range 2 3).reset_draw_range.draw dt p =
          [DeviceOp.setDefaultUniforms p,
           DeviceOp.drawElements m.vertex_buffer.handle ib.handle dt 0
             10])) := by
  refine ⟨?_, ?_, ?_, ?_⟩
  · cases hib : m.index_buffer <;> simp [Mesh.draw, meshDrawsOf, hib]
  · intro ib ht hdr hib
    simp [Mesh.draw, ht, hdr, hib]
  · intro ht hdr hib
    simp [Mesh.draw, ht, hdr, hib]
  · intro ib ht hib hcount
    constructor
    · simp [Mesh.draw, Mesh.set_draw_range, ht, hib]
    · simp [Mesh.draw, Mesh.set_draw_range, Mesh.reset_draw_range, ht,
        hib, hcount]

/-- Witness for C4: `mesh_draw_one_call` on an indexed mesh whose index
buffer holds 10 indices. -/
theorem mesh_draw_one_call_witness :
    ((Mesh.indexed ⟨⟨0, 4⟩⟩ ⟨⟨1, 10⟩⟩).set_draw_range 2 3).draw ⟨7⟩
        DrawParams.default =
      [DeviceOp.setDefaultUniforms DrawParams.default,
       DeviceOp.drawElements ⟨0, 4⟩ ⟨1, 10⟩ ⟨7⟩ 2 3]
    ∧ ((Mesh.indexed ⟨⟨0, 4⟩⟩
          ⟨⟨1, 10⟩⟩).set_draw_range 2 3).reset_draw_range.draw ⟨7⟩
        DrawParams.default =
      [DeviceOp.setDefaultUniforms DrawParams.default,
       DeviceOp.drawElements ⟨0, 4⟩ ⟨1, 10⟩ ⟨7⟩ 0 10] :=
  (mesh_draw_one_call (Mesh.indexed ⟨⟨0, 4⟩⟩ ⟨⟨1, 10⟩⟩) ⟨7⟩
    DrawParams.default).2.2.2 ⟨⟨1, 10⟩⟩ rfl rfl rfl

/-- Claim C5: cloning a Mesh copies only the composition — after
cloning, replacing the original's vertex buffer yields a mesh holding
the new buffer while the clone still references the original buffer —
whereas cloning a VertexBuffer shares the underlying GPU resource, so a
`set_data` through the original is observable when reading through the
clone's handle. -/
theorem mesh_clone_vs_buffer_clone (d : Device) (vs data : List Vertex)
    (m : Mesh) (vb2 : VertexBuffer) (h : data.length = vs.length) :
    (Mesh.clone m).vertex_buffer = m.vertex_buffer
    ∧ (m.set_vertex_buffer vb2).vertex_buffer = vb2
    ∧ ((VertexBuffer.new d vs).2.set_data (VertexBuffer.new d vs).1 data
        0).readVertexBuffer ((VertexBuffer.new d vs).2.clone).handle =
      data := by
  refine ⟨rfl, rfl, ?_⟩
  have hid : (VertexBuffer.new d vs).2.handle.id <
      (VertexBuffer.new d vs).1.vbufs.length := by
    simp [VertexBuffer.new, Device.new_vertex_buffer,
      Device.set_vertex_buffer_data]
  have hread := readVertexBuffer_new d vs
  have hmain := readVertexBuffer_set_data_self (VertexBuffer.new d vs).1
    (VertexBuffer.new d vs).2 data hid (by rw [hread]; exact h.ge)
  simpa [VertexBuffer.clone] using hmain

/-- Witness for C5: `mesh_clone_vs_buffer_clone` on a one-element
buffer created on an empty device, overwritten with one new vertex. -/
theorem mesh_clone_vs_buffer_clone_witness :
    (Mesh.clone (Mesh.new ⟨⟨0, 1⟩⟩)).vertex_buffer =
      (Mesh.new ⟨⟨0, 1⟩⟩).vertex_buffer
    ∧ ((Mesh.new ⟨⟨0, 1⟩⟩).set_vertex_buffer ⟨⟨5, 3⟩⟩).vertex_buffer =
      ⟨⟨5, 3⟩⟩
    ∧ ((VertexBuffer.new ⟨[], []⟩ [Vertex.zero]).2.set_data
        (VertexBuffer.new ⟨[], []⟩ [Vertex.zero]).1
        [Vertex.new ⟨1, 2⟩ ⟨0, 0⟩ Color.WHITE] 0).readVertexBuffer
        ((VertexBuffer.new ⟨[], []⟩ [Vertex.zero]).2.clone).handle =
      [Vertex.new ⟨1, 2⟩ ⟨0, 0⟩ Color.WHITE] :=
  mesh_clone_vs_buffer_clone ⟨[], []⟩ [Vertex.zero]
    [Vertex.new ⟨1, 2⟩ ⟨0, 0⟩ Color.WHITE] (Mesh.new ⟨⟨0, 1⟩⟩) ⟨⟨5, 3⟩⟩
    (by decide)

/-- Claim C8: a default-constructed DrawParams has position (0,0),
scale (1,1), origin (0,0), rotation 0, opaque white color and no clip
rectangle, and converting a bare position value yields a DrawParams
with that position and every other option at its default. -/
theorem draw_params_defaults (p : Vec2) :
    DrawParams.default.position = ⟨0, 0⟩
    ∧ DrawParams.default.scale = ⟨1, 1⟩
    ∧ DrawParams.default.origin = ⟨0, 0⟩
    ∧ DrawParams.default.rotation = 0
    ∧ DrawParams.default.color = Color.WHITE
    ∧ DrawParams.default.clip = none
    ∧ DrawParams.new = DrawParams.default
    ∧ (DrawParams.from_position p).position = p
    ∧ DrawParams.from_position p =
      { DrawParams.default with position := p } :=
  ⟨rfl, rfl, rfl, rfl, rfl, rfl, rfl, rfl, rfl⟩

/-! Lemmas about the geometry builder. -/

/-- An erroring `emit` leaves the builder untouched. -/
theorem emit_error_eq (b : GeometryBuilder)
    (res : Except TessellationError (List Vertex × List Nat))
    (h : (b.emit res).2.isSome = true) : (b.emit res).1 = b := by
  cases res with
  | ok out => simp [GeometryBuilder.emit] at h
  | error e => rfl

/-- Every `emit` either appends all its output or appends nothing. -/
theorem emit_appends (b : GeometryBuilder)
    (res : Except TessellationError (List Vertex × List Nat)) :
    ∃ nv ni, (b.emit res).1.data.vertices = b.data.vertices ++ nv
      ∧ (b.emit res).1.data.indices = b.data.indices ++ ni := by
  cases res with
  | ok out =>
      exact ⟨out.1, out.2.map (· + b.data.vertices.length), rfl, rfl⟩
  | error e => exact ⟨[], [], by simp [GeometryBuilder.emit], by simp [GeometryBuilder.emit]⟩

/-- `emit` never changes the current color. -/
theorem emit_color_eq (b : GeometryBuilder)
    (res : Except TessellationError (List Vertex × List Nat)) :
    (b.emit res).1.color = b.color := by
  cases res <;> rfl

/-- A zero stroke width makes the stroke tessellator fail. -/
theorem tessellateStroke_zero (c : Color) (points : List Vec2)
    (closed : Bool) :
    tessellateStroke c 0 points closed =
      Except.error TessellationError.degenerate := by
  simp [tessellateStroke]

/-- Claim C2: a polygon with fewer than 3 points, and any shape method
invoked with a zero stroke width, returns a tessellation error; every
erroring shape call leaves the accumulated vertex and index sequences
exactly as they were, and every shape call either appends all of its
new vertices and indices or appends none (atomicity). -/
theorem shape_call_errors_atomic (b : GeometryBuilder) (c : ShapeCall) :
    ((c.zeroStroke = true ∨ c.fewPolygonPoints = true) →
      (b.applyCall c).2.isSome = true)
    ∧ ((b.applyCall c).2.isSome = true → (b.applyCall c).1 = b)
    ∧ (∃ nv ni,
        (b.applyCall c).1.data.vertices = b.data.vertices ++ nv
        ∧ (b.applyCall c).1.data.indices = b.data.indices ++ ni) := by
  refine ⟨?_, ?_, ?_⟩
  · intro h
    cases c with
    | rectangle style rect =>
        cases style with
        | Fill =>
            simp [ShapeCall.zeroStroke, ShapeCall.fewPolygonPoints] at h
        | Stroke w =>
            simp [ShapeCall.zeroStroke, ShapeCall.fewPolygonPoints] at h
            simp [GeometryBuilder.applyCall, GeometryBuilder.rectangle, h,
              tessellateStroke_zero, GeometryBuilder.emit]
    | rounded_rectangle style rect radii =>
        cases style with
        | Fill =>
            simp [ShapeCall.zeroStroke, ShapeCall.fewPolygonPoints] at h
        | Stroke w =>
            simp [ShapeCall.zeroStroke, ShapeCall.fewPolygonPoints] at h
            simp [GeometryBuilder.applyCall,
              GeometryBuilder.rounded_rectangle, h, tessellateStroke_zero,
              GeometryBuilder.emit]
    | circle style center radius =>
        cases style with
        | Fill =>
            simp [ShapeCall.zeroStroke, ShapeCall.fewPolygonPoints] at h
        | Stroke w =>
            simp [ShapeCall.zeroStroke, ShapeCall.fewPolygonPoints] at h
            simp [GeometryBuilder.applyCall, GeometryBuilder.circle, h,
              tessellateStroke_zero, GeometryBuilder.emit]
    | ellipse style center radii =>
        cases style with
        | Fill =>
            simp [ShapeCall.zeroStroke, ShapeCall.fewPolygonPoints] at h
        | Stroke w =>
            simp [ShapeCall.zeroStroke, ShapeCall.fewPolygonPoints] at h
            simp [GeometryBuilder.applyCall, GeometryBuilder.ellipse, h,
              tessellateStroke_zero, GeometryBuilder.emit]
    | polygon style points =>
        by_cases hlen : points.length < 3
        · simp [GeometryBuilder.applyCall, GeometryBuilder.polygon, hlen]
        · cases style with
          | Fill =>
              simp [ShapeCall.zeroStroke, ShapeCall.fewPolygonPoints,
                hlen] at h
          | Stroke w =>
              simp [ShapeCall.zeroStroke, ShapeCall.fewPolygonPoints,
                hlen] at h
              simp [GeometryBuilder.applyCall, GeometryBuilder.polygon,
                hlen, h, tessellateStroke_zero, GeometryBuilder.emit]
    | polyline w points =>
        simp [ShapeCall.zeroStroke, ShapeCall.fewPolygonPoints] at h
        simp [GeometryBuilder.applyCall, GeometryBuilder.polyline, h,
          tessellateStroke_zero, GeometryBuilder.emit]
  · cases c with
    | rectangle style rect =>
        cases style <;> exact fun h => emit_error_eq _ _ h
    | rounded_rectangle style rect radii =>
        cases style <;> exact fun h => emit_error_eq _ _ h
    | circle style center radius =>
        cases style <;> exact fun h => emit_error_eq _ _ h
    | ellipse style center radii =>
        cases style <;> exact fun h => emit_error_eq _ _ h
    | polygon style points =>
        simp only [GeometryBuilder.applyCall, GeometryBuilder.polygon]
        by_cases hlen : points.length < 3
        · rw [if_pos hlen]
          intro _
          rfl
        · rw [if_neg hlen]
          cases style <;> exact fun h => emit_error_eq _ _ h
    | polyline w points => exact fun h => emit_error_eq _ _ h
  · cases c with
    | rectangle style rect => cases style <;> exact emit_appends _ _
    | rounded_rectangle style rect radii =>
        cases style <;> exact emit_appends _ _
    | circle style center radius => cases style <;> exact emit_appends _ _
    | ellipse style center radii => cases style <;> exact emit_appends _ _
    | polygon style points =>
        simp only [GeometryBuilder.applyCall, GeometryBuilder.polygon]
        by_cases hlen : points.length < 3
        · rw [if_pos hlen]
          exact ⟨[], [], by simp, by simp⟩
        · rw [if_neg hlen]
          cases style <;> exact emit_appends _ _
    | polyline w points => exact emit_appends _ _

/-- Witness for C2: `shape_call_errors_atomic` on a fill polygon with
only two points — the call errors and the (empty) builder is kept
as-is. -/
theorem shape_call_errors_atomic_witness :
    (GeometryBuilder.new.applyCall
      (ShapeCall.polygon ShapeStyle.Fill [⟨0, 0⟩, ⟨1, 1⟩])).2.isSome = true
    ∧ (GeometryBuilder.new.applyCall
        (ShapeCall.polygon ShapeStyle.Fill [⟨0, 0⟩, ⟨1, 1⟩])).1 =
      GeometryBuilder.new := by
  have h := shape_call_errors_atomic GeometryBuilder.new
    (ShapeCall.polygon ShapeStyle.Fill [⟨0, 0⟩, ⟨1, 1⟩])
  exact ⟨h.1 (Or.inr (by decide)), h.2.1 (h.1 (Or.inr (by decide)))⟩

/-- Claim C6: `clear` empties both accumulated sequences, leaves the
current color unchanged, and the cleared builder behaves on any
subsequent shape call exactly like a fresh builder carrying the same
color. -/
theorem clear_empties_keeps_color (b : GeometryBuilder) :
    b.clear.vertices = []
    ∧ b.clear.indices = []
    ∧ b.clear.color = b.color
    ∧ ∀ c, b.clear.applyCall c =
        (GeometryBuilder.new.set_color b.color).applyCall c := by
  refine ⟨rfl, rfl, rfl, fun c => ?_⟩
  have hb : b.clear = GeometryBuilder.new.set_color b.color := rfl
  rw [hb]

/-- Counterexample to claim C9: `build_buffers` takes the builder by
shared reference (`&self`, mesh.rs line 881), so after the call the
accumulated data is still available in the builder — here the three
vertices of a fill polygon remain — contradicting "after the call, the
builder's accumulated vertices/indices are no longer available in
it". -/
theorem build_buffers_retains_data :
    ((((GeometryBuilder.new.polygon ShapeStyle.Fill
        [⟨0, 0⟩, ⟨1, 0⟩, ⟨0, 1⟩]).1).build_buffers ⟨[], []⟩).1 =
      (GeometryBuilder.new.polygon ShapeStyle.Fill
        [⟨0, 0⟩, ⟨1, 0⟩, ⟨0, 1⟩]).1)
    ∧ ((((GeometryBuilder.new.polygon ShapeStyle.Fill
        [⟨0, 0⟩, ⟨1, 0⟩, ⟨0, 1⟩]).1).build_buffers
          ⟨[], []⟩).1.vertices ≠ []) := by
  decide

/-- Claim C9 (amended): `into_data` consumes the builder (the source
takes `self` by value), returning exactly the accumulated vertex and
index sequences; `build_buffers` and `build_mesh` take the builder by
shared reference, leave its accumulated data intact, and produce a
VertexBuffer + IndexBuffer pair (respectively an indexed Mesh over that
pair) whose GPU contents are exactly the accumulated data. -/
theorem builder_build_exact (b : GeometryBuilder) (d : Device) :
    b.into_data = (b.data.vertices, b.data.indices)
    ∧ (b.build_buffers d).1 = b
    ∧ (b.build_buffers d).2.1.readVertexBuffer
        (b.build_buffers d).2.2.1.handle = b.data.vertices
    ∧ (b.build_buffers d).2.1.readIndexBuffer
        (b.build_buffers d).2.2.2.handle = b.data.indices
    ∧ b.build_mesh d =
      ((b.build_buffers d).1, (b.build_buffers d).2.1,
       Mesh.indexed (b.build_buffers d).2.2.1 (b.build_buffers d).2.2.2) := by
  refine ⟨rfl, rfl, ?_, ?_, rfl⟩
  · exact readVertexBuffer_new d b.data.vertices
  · exact readIndexBuffer_new (VertexBuffer.new d b.data.vertices).1
      b.data.indices

/-- All vertices produced by the fill tessellator carry the color it
was given. -/
theorem tessellateFill_color (c : Color) (pts : List Vec2) (v : Vertex)
    (hv : v ∈ (tessellateFill c pts).1) : v.color = c := by
  obtain ⟨p, hp, rfl⟩ := List.mem_map.1 hv
  rfl

/-- All vertices produced by a successful stroke tessellation carry the
color it was given. -/
theorem tessellateStroke_color (c : Color) (w : Scalar)
    (pts : List Vec2) (closed : Bool)
    (out : List Vertex × List Nat)
    (h : tessellateStroke c w pts closed = Except.ok out)
    (v : Vertex) (hv : v ∈ out.1) : v.color = c := by
  unfold tessellateStroke at h
  split at h
  · cases h
  · cases h
    obtain ⟨p, hp, rfl⟩ := List.mem_map.1 hv
    rfl

/-- A vertex present after `emit` was either already there or got the
builder's current color, provided the tessellation result colors its
vertices that way. -/
theorem emit_vertex_color (b : GeometryBuilder)
    (res : Except TessellationError (List Vertex × List Nat))
    (hres : ∀ out, res = Except.ok out → ∀ v ∈ out.1, v.color = b.color)
    (v : Vertex) (hv : v ∈ (b.emit res).1.data.vertices) :
    v ∈ b.data.vertices ∨ v.color = b.color := by
  cases res with
  | error e => exact Or.inl hv
  | ok out =>
      rcases List.mem_append.1 hv with h | h
      · exact Or.inl h
      · exact Or.inr (hres out rfl v h)

/-- A shape call never changes the current color. -/
theorem applyCall_color_eq (b : GeometryBuilder) (c : ShapeCall) :
    (b.applyCall c).1.color = b.color := by
  cases c with
  | rectangle style rect => cases style <;> exact emit_color_eq _ _
  | rounded_rectangle style rect radii =>
      cases style <;> exact emit_color_eq _ _
  | circle style center radius => cases style <;> exact emit_color_eq _ _
  | ellipse style center radii => cases style <;> exact emit_color_eq _ _
  | polygon style points =>
      simp only [GeometryBuilder.applyCall, GeometryBuilder.polygon]
      by_cases hlen : points.length < 3
      · rw [if_pos hlen]
      · rw [if_neg hlen]
        cases style <;> exact emit_color_eq _ _
  | polyline w points => exact emit_color_eq _ _

/-- A vertex present after any shape call was either already there or
got the builder's current color. -/
theorem applyCall_vertex_color (b : GeometryBuilder) (c : ShapeCall)
    (v : Vertex) (hv : v ∈ (b.applyCall c).1.data.vertices) :
    v ∈ b.data.vertices ∨ v.color = b.color := by
  cases c with
  | rectangle style rect =>
      cases style with
      | Fill =>
          refine emit_vertex_color b _ ?_ v hv
          intro out hout u hu
          cases hout
          exact tessellateFill_color _ _ u hu
      | Stroke w =>
          exact emit_vertex_color b _
            (fun out hout u hu => tessellateStroke_color _ _ _ _ out hout u hu)
            v hv
  | rounded_rectangle style rect radii =>
      cases style with
      | Fill =>
          refine emit_vertex_color b _ ?_ v hv
          intro out hout u hu
          cases hout
          exact tessellateFill_color _ _ u hu
      | Stroke w =>
          exact emit_vertex_color b _
            (fun out hout u hu => tessellateStroke_color _ _ _ _ out hout u hu)
            v hv
  | circle style center radius =>
      cases style with
      | Fill =>
          refine emit_vertex_color b _ ?_ v hv
          intro out hout u hu
          cases hout
          exact tessellateFill_color _ _ u hu
      | Stroke w =>
          exact emit_vertex_color b _
            (fun out hout u hu => tessellateStroke_color _ _ _ _ out hout u hu)
            v hv
  | ellipse style center radii =>
      cases style with
      | Fill =>
          refine emit_vertex_color b _ ?_ v hv
          intro out hout u hu
          cases hout
          exact tessellateFill_color _ _ u hu
      | Stroke w =>
          exact emit_vertex_color b _
            (fun out hout u hu => tessellateStroke_color _ _ _ _ out hout u hu)
            v hv
  | polygon style points =>
      revert hv
      simp only [GeometryBuilder.applyCall, GeometryBuilder.polygon]
      by_cases hlen : points.length < 3
      · rw [if_pos hlen]
        exact fun hv => Or.inl hv
      · rw [if_neg hlen]
        cases style with
        | Fill =>
            intro hv
            refine emit_vertex_color b _ ?_ v hv
            intro out hout u hu
            cases hout
            exact tessellateFill_color _ _ u hu
        | Stroke w =>
            intro hv
            exact emit_vertex_color b _
              (fun out hout u hu =>
                tessellateStroke_color _ _ _ _ out hout u hu)
              v hv
  | polyline w points =>
      exact emit_vertex_color b _
        (fun out hout u hu => tessellateStroke_color _ _ _ _ out hout u hu)
        v hv

/-- Running shape calls from a builder whose vertices are all white and
whose current color is white only ever produces white vertices. -/
theorem runCalls_white_inv (calls : List ShapeCall)
    (b : GeometryBuilder) (hb : b.color = Color.WHITE)
    (hv : ∀ v ∈ b.data.vertices, v.color = Color.WHITE) :
    ∀ v ∈ (runCalls b calls).data.vertices, v.color = Color.WHITE := by
  induction calls generalizing b with
  | nil => exact hv
  | cons c rest ih =>
      intro v hmem
      have hb2 : (b.applyCall c).1.color = Color.WHITE := by
        rw [applyCall_color_eq]
        exact hb
      have hv2 : ∀ u ∈ (b.applyCall c).1.data.vertices,
          u.color = Color.WHITE := by
        intro u hu
        rcases applyCall_vertex_color b c u hu with h | h
        · exact hv u h
        · rw [h]
          exact hb
      exact ih _ hb2 hv2 v hmem

/-- Claim C10: a newly created geometry builder — equal to the
default-constructed one — starts with empty vertex and index sequences
and opaque white as current color, and every vertex produced by any
sequence of shape calls made before any set_color call is white. -/
theorem new_builder_white :
    GeometryBuilder.default = GeometryBuilder.new
    ∧ GeometryBuilder.new.vertices = []
    ∧ GeometryBuilder.new.indices = []
    ∧ GeometryBuilder.new.color = Color.WHITE
    ∧ ∀ calls : List ShapeCall,
        ∀ v ∈ (runCalls GeometryBuilder.new calls).vertices,
          v.color = Color.WHITE := by
  refine ⟨rfl, rfl, rfl, rfl, fun calls => ?_⟩
  exact runCalls_white_inv calls GeometryBuilder.new rfl
    (fun v h => absurd h (List.not_mem_nil v))

/-- Witness for C10: `new_builder_white` applied to one fill-polygon
call; the first produced vertex is white. -/
theorem new_builder_white_witness :
    TetraVertexConstructor Color.WHITE ⟨0, 0⟩ ∈
      (runCalls GeometryBuilder.new
        [ShapeCall.polygon ShapeStyle.Fill
          [⟨0, 0⟩, ⟨1, 0⟩, ⟨0, 1⟩]]).vertices
    ∧ (TetraVertexConstructor Color.WHITE ⟨0, 0⟩).color = Color.WHITE :=
  ⟨by decide,
   new_builder_white.2.2.2.2
     [ShapeCall.polygon ShapeStyle.Fill [⟨0, 0⟩, ⟨1, 0⟩, ⟨0, 1⟩]]
     (TetraVertexConstructor Color.WHITE ⟨0, 0⟩) (by decide)⟩

end Tetra
